import Mathlib

/-!
# Verification of the slack-mcp transport adapter, upload resolver and tool facades

Shallow embedding of `src/mcp/services/slack_bot_api.py` (transport adapter and
dynamic upload resolver) and `src/src/tools/tools.py` (tool facades).

Modelling conventions:
* Python JSON-ish values (payload dicts, kwargs values, error values) are the
  inductive `Value`; a Python dict is an association list `Payload`.
* Python exceptions raised out of a function are `Except.error msg` where `msg`
  is `str(e)`; a function that cannot raise returns its value directly.
* The remote Slack SDK call is abstracted by `CallResult`: the SDK either
  returns a response object (whose `.data` is the decoded payload), raises
  `SlackApiError` carrying `e.response`, or raises some other exception.
* The filesystem, the HTTP fetch and the Slack client are abstracted by `Env`;
  outbound calls performed by an operation are collected in a `List Effect`
  trace (`httpGet` for the `httpx` fetch, `slackCall` for the SDK call).
* Python truthiness (`if text:`, `response.get("ok", False)`, `if not filename:`)
  is modelled explicitly by `truthy` / `optTruthy` / `optListTruthy`.
-/

set_option autoImplicit false

/-- A Python/JSON value as it appears in payloads, kwargs and error fields. -/
inductive Value where
  | vnull : Value
  | vbool : Bool → Value
  | vint : Int → Value
  | vstr : String → Value
  | vbytes : List UInt8 → Value
  | vlist : List Value → Value
  | vdict : List (String × Value) → Value
deriving Repr

/-- A Python dict with string keys, as an association list (keys are unique in
every dict this development builds, so first-match lookup is dict lookup). -/
abbrev Payload := List (String × Value)

/-- Python `d.get(k)`: `some` of the value when the key is present, else `none`. -/
def dictGet (d : Payload) (k : String) : Option Value :=
  (d.find? (fun kv => kv.1 == k)).map (fun kv => kv.2)

/-- Python `d.get(k, dflt)`. -/
def dictGetD (d : Payload) (k : String) (dflt : Value) : Value :=
  (dictGet d k).getD dflt

/-- Python truthiness of a value (`None`, `False`, `0`, `""`, `b""`, `[]`, `{}`
are falsy). -/
def truthy : Value → Bool
  | .vnull => false
  | .vbool b => b
  | .vint n => !(n == 0)
  | .vstr s => !(s == "")
  | .vbytes bs => !bs.isEmpty
  | .vlist xs => !xs.isEmpty
  | .vdict kvs => !kvs.isEmpty

/-- Python truthiness of an `Optional[str]` argument (`None` and `""` falsy). -/
def optTruthy : Option String → Bool
  | none => false
  | some s => !(s == "")

/-- Python truthiness of an `Optional[List[...]]` argument (`None` and `[]` falsy). -/
def optListTruthy : Option (List Value) → Bool
  | none => false
  | some l => !l.isEmpty

/-- Does `needle` occur as a contiguous sublist of `hay`? -/
def charsContain (needle : List Char) : List Char → Bool
  | [] => needle.isEmpty
  | c :: t => needle.isPrefixOf (c :: t) || charsContain needle t

/-- Python `needle in hay` on strings. -/
def pyIn (needle hay : String) : Bool :=
  charsContain needle.data hay.data

/-- Python `s.startswith(pre)`. -/
def pyStartsWith (s pre : String) : Bool :=
  pre.data.isPrefixOf s.data

/-- f-string interpolation of the `error` field (`{result.error}`): `None` when
absent, the text of a string error, Python reprs of the scalar values.
Container/bytes error values never occur (Slack error codes are strings);
their address-dependent reprs are abbreviated. -/
def errStr : Option Value → String
  | none => "None"
  | some (.vstr s) => s
  | some (.vbool true) => "True"
  | some (.vbool false) => "False"
  | some .vnull => "None"
  | some (.vint n) => toString n
  | some _ => "<object>"

/-- `SlackResponse` dataclass from `src/src/models/slack_types.py`. The `ok`
field stores the truthiness of the raw `ok` value, which is how every consumer
(`if result.ok:`) reads it. -/
structure SlackResponse where
  ok : Bool
  data : Payload
  error : Option Value := none
  warning : Option Value := none
deriving Repr

/-- `SlackBotAPIService._handle_response`: convert an SDK response payload to
the standard envelope. -/
def handle_response (p : Payload) : SlackResponse :=
  { ok := truthy (dictGetD p "ok" (.vbool false))
    data := p
    error := dictGet p "error"
    warning := dictGet p "warning" }

/-- Outcome of the awaited SDK call inside `_safe_api_call`:
either the SDK returned a response whose decoded payload is `p`, or it raised
`SlackApiError` with `e.response = r`, or it raised some other exception whose
`str(e)` is `msg` (this also covers `getattr` failing on an unknown method
name, which the same `try` block encloses). -/
inductive CallResult where
  | success : Payload → CallResult
  | apiError : Payload → CallResult
  | exc : String → CallResult

/-- The decoded payload carried by the remote outcome. -/
def payloadOf : CallResult → Payload
  | .success p => p
  | .apiError r => r
  | .exc _ => []

/-- Does the outcome represent a failure of the remote call? -/
def failedCall : CallResult → Bool
  | .success _ => false
  | .apiError _ => true
  | .exc _ => true

/-- `SlackBotAPIService._safe_api_call`, as a function of the remote outcome.
The `SlackApiError` handler reads `e.response["error"]`; when that key is
missing the subscript itself raises `KeyError('error')` out of the handler,
modelled as `Except.error` (Slack failure payloads always carry the key). -/
def safe_api_call : CallResult → Except String SlackResponse
  | .success p => .ok (handle_response p)
  | .apiError r =>
      match dictGet r "error" with
      | some v => .ok { ok := false, data := r, error := some v }
      | none => .error "'error'"
  | .exc msg => .ok { ok := false, data := [], error := some (.vstr msg) }

/-- Well-formedness of a remote outcome, i.e. the contract of the external
Slack SDK / Slack Web API (out of scope of this repository): a response the
SDK returns without raising has a boolean-true `ok` and no `error` key
(the SDK raises `SlackApiError` on any non-ok payload); a `SlackApiError`
carries a non-empty string error code; an exception stringifies non-empty. -/
def WellFormedOutcome : CallResult → Prop
  | .success p => dictGet p "ok" = some (.vbool true) ∧ dictGet p "error" = none
  | .apiError r => ∃ s, dictGet r "error" = some (.vstr s) ∧ s ≠ ""
  | .exc msg => msg ≠ ""

/-! ## `urllib.parse.urlparse` (the fragment used by `_is_url` and the URL
upload branch: `scheme`, `netloc` and `path` components, CPython semantics) -/

/-- ASCII letter. -/
def isAsciiAlpha (c : Char) : Bool :=
  (('a' ≤ c) && (c ≤ 'z')) || (('A' ≤ c) && (c ≤ 'Z'))

/-- CPython `scheme_chars`: letters, digits, `+`, `-`, `.`. -/
def isSchemeChar (c : Char) : Bool :=
  isAsciiAlpha c || (('0' ≤ c) && (c ≤ '9')) || (c == '+') || (c == '-') || (c == '.')

/-- Split a character list at the first occurrence of `c` (the separator is
dropped); `none` when `c` does not occur. -/
def splitAtFirst (c : Char) : List Char → Option (List Char × List Char)
  | [] => none
  | x :: xs =>
      if x == c then some ([], xs)
      else (splitAtFirst c xs).map (fun p => (x :: p.1, p.2))

/-- Split a character list before the first occurrence of any of `stops`
(the remainder starts with the stop character, as CPython `_splitnetloc`). -/
def splitAtAny (stops : List Char) : List Char → List Char × List Char
  | [] => ([], [])
  | x :: xs =>
      if stops.contains x then ([], x :: xs)
      else
        let p := splitAtAny stops xs
        (x :: p.1, p.2)

/-- The part of a character list before the first occurrence of `c` (all of it
when `c` does not occur), as Python `s.split(c, 1)[0]`. -/
def takeBefore (c : Char) (l : List Char) : List Char :=
  match splitAtFirst c l with
  | some pr => pr.1
  | none => l

/-- The components of `urlparse` that this code inspects. -/
structure UrlParts where
  scheme : String
  netloc : String
  path : String
deriving Repr, DecidableEq

/-- CPython `urlsplit`/`urlparse` restricted to scheme, netloc and path:
a scheme is split off before the first `:` when the candidate starts with an
ASCII letter and consists of scheme characters (and is lowercased); a netloc
follows a leading `//` and extends to the first of `/ ? #`; the fragment
(after `#`) and the query (after `?`) are stripped from the path; an unmatched
square bracket in the netloc raises `ValueError("Invalid IPv6 URL")`,
modelled as `none`. -/
def urlparse (url : String) : Option UrlParts :=
  let l := url.data
  let sr : List Char × List Char :=
    match splitAtFirst ':' l with
    | some (pre, post) =>
        match pre with
        | [] => ([], l)
        | c0 :: _ =>
            if isAsciiAlpha c0 && pre.all isSchemeChar then
              (pre.map Char.toLower, post)
            else ([], l)
    | none => ([], l)
  let nr : List Char × List Char :=
    match sr.2 with
    | '/' :: '/' :: r => splitAtAny ['/', '?', '#'] r
    | rest => ([], rest)
  if nr.1.contains '[' != nr.1.contains ']' then none
  else
    some { scheme := ⟨sr.1⟩, netloc := ⟨nr.1⟩, path := ⟨takeBefore '?' (takeBefore '#' nr.2)⟩ }

/-- `SlackBotAPIService._is_url`: the string parses with both a scheme and a
netloc present (`all([result.scheme, result.netloc])`); a `ValueError` from
`urlparse` is caught and yields `False`. -/
def is_url (path : String) : Bool :=
  match urlparse path with
  | some r => !(r.scheme == "") && !(r.netloc == "")
  | none => false

/-- `os.path.basename` (POSIX): the component after the last `/`. -/
def basename (p : String) : String :=
  ⟨(p.data.reverse.takeWhile (fun c => !(c == '/'))).reverse⟩

/-! ## Environment, effects, and the upload resolver -/

/-- Outcome of `httpx` `client.get(url)` followed by `raise_for_status()`:
a body with its `content-type` header (Python `headers.get('content-type', '')`),
an `httpx.HTTPError` (connection failure or error status), or any other
exception. -/
inductive FetchResult where
  | ok : String → List UInt8 → FetchResult
  | httpError : String → FetchResult
  | exc : String → FetchResult

/-- The external world an operation runs against: the two filesystem existence
checks (`os.path.isfile`, `Path(...).exists()`), the HTTP fetch, and the Slack
SDK client (outcome of each named remote call with given kwargs). -/
structure Env where
  isFile : String → Bool
  pathExists : String → Bool
  fetch : String → FetchResult
  slack : String → Payload → CallResult

/-- An outbound network call performed by an operation. -/
inductive Effect where
  | httpGet : String → Effect
  | slackCall : String → Payload → Effect
deriving Repr

/-- `SlackBotAPIService._is_file_path`: `os.path.isfile(path) or Path(path).exists()`. -/
def is_file_path (env : Env) (path : String) : Bool :=
  env.isFile path || env.pathExists path

/-- A `Union[str, List[str]]` channels argument. -/
inductive StrOrList where
  | one : String → StrOrList
  | many : List String → StrOrList

/-- The `isinstance(channels, list)` normalisation: join a list with commas. -/
def joinChannels : StrOrList → String
  | .one s => s
  | .many l => String.intercalate "," l

/-- A failure envelope `SlackResponse(ok=False, data={}, error=msg)`. -/
def failResp (msg : String) : SlackResponse :=
  { ok := false, data := [], error := some (.vstr msg) }

/-- `SlackBotAPIService._upload_from_url`: fetch the URL, derive the filename
(explicit argument when truthy, else the basename of the URL path, else the
content-type lookup), build the kwargs and perform `files_upload_v2`.
`httpx.HTTPError` and any other exception are caught (the latter also covers
a `ValueError` raised by `urlparse` and an exception escaping
`_safe_api_call`). -/
def upload_from_url (env : Env) (channels file_url : String)
    (filename title initial_comment thread_ts : Option String) :
    SlackResponse × List Effect :=
  match env.fetch file_url with
  | .httpError msg =>
      (failResp ("Failed to download file from URL: " ++ msg), [.httpGet file_url])
  | .exc msg =>
      (failResp ("Upload failed: " ++ msg), [.httpGet file_url])
  | .ok contentType content =>
      let fnOpt : Option String :=
        if optTruthy filename then filename
        else
          match urlparse file_url with
          | none => none
          | some u =>
              let base := basename u.path
              some (if (base == "") || !(pyIn "." base) then
                      if pyIn "pdf" contentType then "downloaded_file.pdf"
                      else if pyIn "image" contentType then "downloaded_image.jpg"
                      else "downloaded_file"
                    else base)
      match fnOpt with
      | none => (failResp "Upload failed: Invalid IPv6 URL", [.httpGet file_url])
      | some fname =>
          let kwargs : Payload :=
            [("channel", .vstr channels), ("file", .vbytes content),
             ("filename", .vstr fname),
             ("title", .vstr (if optTruthy title then title.getD ""
                              else "File from " ++ file_url))]
            ++ (if optTruthy initial_comment then
                  [("initial_comment", .vstr (initial_comment.getD ""))] else [])
            ++ (if optTruthy thread_ts then
                  [("thread_ts", .vstr (thread_ts.getD ""))] else [])
          (match safe_api_call (env.slack "files_upload_v2" kwargs) with
           | .ok resp => resp
           | .error e => failResp ("Upload failed: " ++ e),
           [.httpGet file_url, .slackCall "files_upload_v2" kwargs])

/-- `SlackBotAPIService._upload_from_path`: derive the filename from the path
basename when not given, build the kwargs (the `file` kwarg is the path
string) and perform `files_upload_v2`; every exception is caught. -/
def upload_from_path (env : Env) (channels file_path : String)
    (filename title initial_comment thread_ts : Option String) :
    SlackResponse × List Effect :=
  let fname := if optTruthy filename then filename.getD "" else basename file_path
  let kwargs : Payload :=
    [("channel", .vstr channels), ("file", .vstr file_path),
     ("filename", .vstr fname),
     ("title", .vstr (if optTruthy title then title.getD "" else "File: " ++ fname))]
    ++ (if optTruthy initial_comment then
          [("initial_comment", .vstr (initial_comment.getD ""))] else [])
    ++ (if optTruthy thread_ts then
          [("thread_ts", .vstr (thread_ts.getD ""))] else [])
  (match safe_api_call (env.slack "files_upload_v2" kwargs) with
   | .ok resp => resp
   | .error e => failResp ("Failed to upload file from path: " ++ e),
   [.slackCall "files_upload_v2" kwargs])

/-- `SlackBotAPIService._upload_content`: upload the UTF-8 encoding of the
text as a file; every exception is caught. -/
def upload_content (env : Env) (channels content fname : String)
    (title initial_comment thread_ts : Option String) :
    SlackResponse × List Effect :=
  let kwargs : Payload :=
    [("channel", .vstr channels), ("file", .vbytes content.toUTF8.toList),
     ("filename", .vstr fname),
     ("title", .vstr (if optTruthy title then title.getD ""
                      else "Text file: " ++ fname))]
    ++ (if optTruthy initial_comment then
          [("initial_comment", .vstr (initial_comment.getD ""))] else [])
    ++ (if optTruthy thread_ts then
          [("thread_ts", .vstr (thread_ts.getD ""))] else [])
  (match safe_api_call (env.slack "files_upload_v2" kwargs) with
   | .ok resp => resp
   | .error e => failResp ("Failed to upload content: " ++ e),
   [.slackCall "files_upload_v2" kwargs])

/-- `SlackBotAPIService.upload_file`: join the channels, then dispatch on the
source string — URL check first, then the filesystem existence check, else
literal text content (which requires a truthy filename before any call is
made). -/
def upload_file (env : Env) (channels : StrOrList) (file_source : String)
    (filename title initial_comment thread_ts : Option String) :
    SlackResponse × List Effect :=
  let chs := joinChannels channels
  if is_url file_source then
    upload_from_url env chs file_source filename title initial_comment thread_ts
  else if is_file_path env file_source then
    upload_from_path env chs file_source filename title initial_comment thread_ts
  else
    if !(optTruthy filename) then
      (failResp "filename is required when uploading text content", [])
    else
      upload_content env chs file_source (filename.getD "") title initial_comment thread_ts

/-- The kwargs of the first Slack SDK call in a trace. -/
def sentSlackKwargs (tr : List Effect) : Option Payload :=
  (tr.filterMap fun e =>
    match e with
    | .slackCall _ kw => some kw
    | _ => none).head?

/-- The `filename` kwarg sent with the first Slack SDK call of a trace. -/
def sentUploadFilename (tr : List Effect) : Option Value :=
  match sentSlackKwargs tr with
  | some kw => dictGet kw "filename"
  | none => none

/-! ## Service kwargs construction and the tool facades -/

/-- `d.get(k, dflt)` applied to a `Value` expected to be a dict (every value
navigated this way is a dict per the Slack payload shapes). -/
def vGetD (v : Value) (k : String) (dflt : Value) : Value :=
  match v with
  | .vdict kvs => dictGetD kvs k dflt
  | _ => dflt

/-- `d.get(k)` (default `None`) on a dict-shaped `Value`. -/
def vGet (v : Value) (k : String) : Value :=
  vGetD v k .vnull

/-- `data.get(k, [])` returning the list of elements. -/
def getListD (d : Payload) (k : String) : List Value :=
  match dictGet d k with
  | some (.vlist xs) => xs
  | _ => []

/-- The kwargs built by `SlackBotAPIService.send_message`: `channel` always,
each optional only when truthy, in source order. -/
def send_message_kwargs (channel : String) (text : Option String)
    (blocks attachments : Option (List Value))
    (thread_ts username icon_emoji icon_url : Option String) : Payload :=
  [("channel", .vstr channel)]
  ++ (if optTruthy text then [("text", .vstr (text.getD ""))] else [])
  ++ (if optListTruthy blocks then [("blocks", .vlist (blocks.getD []))] else [])
  ++ (if optListTruthy attachments then [("attachments", .vlist (attachments.getD []))] else [])
  ++ (if optTruthy thread_ts then [("thread_ts", .vstr (thread_ts.getD ""))] else [])
  ++ (if optTruthy username then [("username", .vstr (username.getD ""))] else [])
  ++ (if optTruthy icon_emoji then [("icon_emoji", .vstr (icon_emoji.getD ""))] else [])
  ++ (if optTruthy icon_url then [("icon_url", .vstr (icon_url.getD ""))] else [])

/-- `SlackBotAPIService.send_message`: build the kwargs and perform
`chat_postMessage` through `_safe_api_call`. -/
def send_message (env : Env) (channel : String) (text : Option String)
    (blocks attachments : Option (List Value))
    (thread_ts username icon_emoji icon_url : Option String) :
    Except String SlackResponse × List Effect :=
  let kwargs := send_message_kwargs channel text blocks attachments
    thread_ts username icon_emoji icon_url
  (safe_api_call (env.slack "chat_postMessage" kwargs),
   [.slackCall "chat_postMessage" kwargs])

/-- `SlackTools.send_slack_message`: validate that text or blocks is present
(raising `ValueError` with no remote call otherwise), call the service, and
either reshape the success envelope or raise `ValueError` embedding the
envelope error. -/
def send_slack_message (env : Env) (channel : String) (text : Option String)
    (blocks attachments : Option (List Value))
    (thread_ts username icon_emoji icon_url : Option String) :
    Except String Value × List Effect :=
  if !(optTruthy text) && !(optListTruthy blocks) then
    (.error "Either text or blocks must be provided", [])
  else
    match send_message env channel text blocks attachments thread_ts username icon_emoji icon_url with
    | (.error e, tr) => (.error e, tr)
    | (.ok resp, tr) =>
        if resp.ok then
          (.ok (.vdict [("success", .vbool true),
                        ("channel", dictGetD resp.data "channel" .vnull),
                        ("timestamp", dictGetD resp.data "ts" .vnull),
                        ("message", .vstr "Message sent successfully")]), tr)
        else
          (.error ("Failed to send message: " ++ errStr resp.error), tr)

/-- The kwargs built by `SlackBotAPIService.list_channels`: `exclude_archived`,
`limit` and `types` always, `cursor` only when truthy. -/
def list_channels_kwargs (exclude_archived : Bool) (limit : Int) (types : String)
    (cursor : Option String) : Payload :=
  [("exclude_archived", .vbool exclude_archived), ("limit", .vint limit),
   ("types", .vstr types)]
  ++ (if optTruthy cursor then [("cursor", .vstr (cursor.getD ""))] else [])

/-- One entry of the list built by `SlackTools.list_slack_channels`. -/
def mkChannelEntry (ch : Value) : Value :=
  .vdict [("id", vGet ch "id"), ("name", vGet ch "name"),
          ("is_private", vGetD ch "is_private" (.vbool false)),
          ("is_member", vGetD ch "is_member" (.vbool false)),
          ("topic", vGetD (vGetD ch "topic" (.vdict [])) "value" (.vstr "")),
          ("purpose", vGetD (vGetD ch "purpose" (.vdict [])) "value" (.vstr "")),
          ("member_count", vGetD ch "num_members" (.vint 0)),
          ("created", vGet ch "created"),
          ("is_archived", vGetD ch "is_archived" (.vbool false))]

/-- `SlackTools.list_slack_channels`: call `conversations_list` through the
service and reshape each channel of the payload on success, raising
`ValueError` embedding the envelope error otherwise. -/
def list_slack_channels (env : Env) (limit : Int) (exclude_archived : Bool)
    (types : String) (cursor : Option String) :
    Except String (List Value) × List Effect :=
  let kwargs := list_channels_kwargs exclude_archived limit types cursor
  match safe_api_call (env.slack "conversations_list" kwargs) with
  | .error e => (.error e, [.slackCall "conversations_list" kwargs])
  | .ok resp =>
      if resp.ok then
        (.ok ((getListD resp.data "channels").map mkChannelEntry),
         [.slackCall "conversations_list" kwargs])
      else
        (.error ("Failed to list channels: " ++ errStr resp.error),
         [.slackCall "conversations_list" kwargs])

/-- The kwargs built by `SlackBotAPIService.list_users`: `limit` always,
`cursor` only when truthy. -/
def list_users_kwargs (limit : Int) (cursor : Option String) : Payload :=
  [("limit", .vint limit)]
  ++ (if optTruthy cursor then [("cursor", .vstr (cursor.getD ""))] else [])

/-- One entry of the list built by `SlackTools.list_slack_users`. -/
def mkUserEntry (u : Value) : Value :=
  .vdict [("id", vGet u "id"), ("name", vGet u "name"),
          ("real_name", vGetD u "real_name" (.vstr "")),
          ("display_name", vGetD (vGetD u "profile" (.vdict [])) "display_name" (.vstr "")),
          ("email", vGetD (vGetD u "profile" (.vdict [])) "email" (.vstr "")),
          ("is_bot", vGetD u "is_bot" (.vbool false)),
          ("is_admin", vGetD u "is_admin" (.vbool false)),
          ("status_text", vGetD (vGetD u "profile" (.vdict [])) "status_text" (.vstr "")),
          ("status_emoji", vGetD (vGetD u "profile" (.vdict [])) "status_emoji" (.vstr "")),
          ("timezone", vGetD u "tz" (.vstr ""))]

/-- The comprehension guard of `list_slack_users`:
`user.get("deleted", False)` under Python truthiness. -/
def userDeleted (u : Value) : Bool :=
  truthy (vGetD u "deleted" (.vbool false))

/-- `SlackTools.list_slack_users`: call `users_list` through the service; on
success keep exactly the members whose `deleted` flag is not set, reshaped;
otherwise raise `ValueError` embedding the envelope error. -/
def list_slack_users (env : Env) (limit : Int) (cursor : Option String) :
    Except String (List Value) × List Effect :=
  let kwargs := list_users_kwargs limit cursor
  match safe_api_call (env.slack "users_list" kwargs) with
  | .error e => (.error e, [.slackCall "users_list" kwargs])
  | .ok resp =>
      if resp.ok then
        (.ok (((getListD resp.data "members").filter
                 (fun u => !userDeleted u)).map mkUserEntry),
         [.slackCall "users_list" kwargs])
      else
        (.error ("Failed to list users: " ++ errStr resp.error),
         [.slackCall "users_list" kwargs])

/-- `SlackBotAPIService.__init__`: the constructor raises
`ValueError("Bot token must start with 'xoxb-'")` unless
`bot_token.startswith('xoxb-')`; otherwise the adapter instance holding the
token is created. -/
def slackBotAPIService_init (bot_token : String) : Except String String :=
  if pyStartsWith bot_token "xoxb-" then .ok bot_token
  else .error "Bot token must start with 'xoxb-'"

/-- C8: for every credential beginning with the required prefix `xoxb-`,
construction of the transport adapter succeeds (the instance holds the token);
for every other credential, construction fails with the configuration
`ValueError` and no instance is created. -/
theorem bot_token_prefix_validation (t : String) :
    (pyStartsWith t "xoxb-" = true → slackBotAPIService_init t = .ok t) ∧
    (pyStartsWith t "xoxb-" = false →
       slackBotAPIService_init t = .error "Bot token must start with 'xoxb-'") := by
  constructor <;> intro h <;> simp [slackBotAPIService_init, h]

/-- Witness for C8 at the concrete tokens `"xoxb-123-abc"` and `"xoxp-999"`. -/
theorem bot_token_prefix_validation_check :
    slackBotAPIService_init "xoxb-123-abc" = .ok "xoxb-123-abc" ∧
    slackBotAPIService_init "xoxp-999" = .error "Bot token must start with 'xoxb-'" :=
  ⟨(bot_token_prefix_validation "xoxb-123-abc").1 (by decide),
   (bot_token_prefix_validation "xoxp-999").2 (by decide)⟩

/-- C9: a message-send facade call with both `text` and `blocks` absent raises
the validation `ValueError` immediately and performs no outbound call. -/
theorem send_message_requires_text_or_blocks (env : Env) (channel : String)
    (attachments : Option (List Value))
    (thread_ts username icon_emoji icon_url : Option String) :
    send_slack_message env channel none none attachments thread_ts username icon_emoji icon_url
      = (.error "Either text or blocks must be provided", []) := rfl

/-- C1: for every remote outcome obeying the external SDK/API contract
(`WellFormedOutcome`), the envelope produced by `_safe_api_call` (and hence by
`_handle_response`, which produces the success-path envelope) satisfies:
`ok = false` implies `error` is a non-empty string; `ok = true` implies `data`
is the raw decoded payload of the remote call and `error` is null; and
`ok = true` never holds together with a non-empty `error`. -/
theorem safe_api_call_envelope_invariant (c : CallResult) (h : WellFormedOutcome c) :
    ∃ resp : SlackResponse, safe_api_call c = .ok resp ∧
      (resp.ok = false → ∃ s, resp.error = some (.vstr s) ∧ s ≠ "") ∧
      (resp.ok = true → resp.data = payloadOf c ∧ resp.error = none) ∧
      ¬(resp.ok = true ∧ ∃ s, resp.error = some (.vstr s) ∧ s ≠ "") := by
  cases c with
  | success p =>
      obtain ⟨hok, herr⟩ := h
      refine ⟨handle_response p, rfl, ?_, ?_, ?_⟩
      · intro hfalse
        simp [handle_response, dictGetD, hok, truthy] at hfalse
      · intro _
        simp [handle_response, herr, payloadOf]
      · rintro ⟨-, s, hs, -⟩
        simp [handle_response, herr] at hs
  | apiError r =>
      obtain ⟨s, hs, hne⟩ := h
      refine ⟨{ ok := false, data := r, error := some (.vstr s) }, ?_, ?_, ?_, ?_⟩
      · simp [safe_api_call, hs]
      · intro _; exact ⟨s, rfl, hne⟩
      · intro htrue; cases htrue
      · rintro ⟨htrue, -⟩; cases htrue
  | exc msg =>
      refine ⟨{ ok := false, data := [], error := some (.vstr msg) }, rfl, ?_, ?_, ?_⟩
      · intro _; exact ⟨msg, rfl, h⟩
      · intro htrue; cases htrue
      · rintro ⟨htrue, -⟩; cases htrue

/-- Witness for C1 at the remote outcome "the awaited call raised
`ConnectionError('connection reset by peer')`". -/
theorem safe_api_call_envelope_invariant_check :
    ∃ resp : SlackResponse,
      safe_api_call (.exc "connection reset by peer") = .ok resp ∧
      (resp.ok = false → ∃ s, resp.error = some (.vstr s) ∧ s ≠ "") ∧
      (resp.ok = true → resp.data = payloadOf (.exc "connection reset by peer") ∧
        resp.error = none) ∧
      ¬(resp.ok = true ∧ ∃ s, resp.error = some (.vstr s) ∧ s ≠ "") :=
  safe_api_call_envelope_invariant (.exc "connection reset by peer")
    (show ("connection reset by peer" : String) ≠ "" from by decide)

/-- C2: for every remote outcome obeying the external SDK/API contract,
`_safe_api_call` does not raise: it returns an envelope, and every failing
outcome (remote-reported application error or any exception) is captured as an
envelope with `ok = false` and an error set, rather than propagated. -/
theorem safe_api_call_captures_failures (c : CallResult) (h : WellFormedOutcome c) :
    ∃ resp : SlackResponse, safe_api_call c = .ok resp ∧
      (failedCall c = true → resp.ok = false ∧ resp.error ≠ none) := by
  cases c with
  | success p => exact ⟨handle_response p, rfl, by intro hf; cases hf⟩
  | apiError r =>
      obtain ⟨s, hs, -⟩ := h
      exact ⟨{ ok := false, data := r, error := some (.vstr s) },
             by simp [safe_api_call, hs], fun _ => ⟨rfl, by simp⟩⟩
  | exc msg => exact ⟨{ ok := false, data := [], error := some (.vstr msg) },
                      rfl, fun _ => ⟨rfl, by simp⟩⟩

/-- Witness for C2 at the remote outcome "the SDK raised `SlackApiError` whose
response reports the error code `channel_not_found`". -/
theorem safe_api_call_captures_failures_check :
    ∃ resp : SlackResponse,
      safe_api_call (.apiError [("ok", .vbool false), ("error", .vstr "channel_not_found")])
        = .ok resp ∧
      (failedCall (.apiError [("ok", .vbool false), ("error", .vstr "channel_not_found")]) = true →
        resp.ok = false ∧ resp.error ≠ none) :=
  safe_api_call_captures_failures
    (.apiError [("ok", .vbool false), ("error", .vstr "channel_not_found")])
    ⟨"channel_not_found", rfl, by decide⟩

/-- C3: upload source classification is a pure function of the source string
and the filesystem state, with fixed precedence: a string that parses as an
absolute URL with both a scheme and a network location is always routed to the
URL branch (for every filesystem, so also when the same string exists as a
local path); otherwise an existing filesystem entry is routed to the
local-path branch; otherwise the string is treated as literal text content. -/
theorem upload_source_classification (env : Env) (chs : StrOrList) (src : String)
    (fn title comment thread : Option String) :
    (∀ u, urlparse src = some u →
       (is_url src = true ↔ (u.scheme ≠ "" ∧ u.netloc ≠ ""))) ∧
    (is_url src = true →
       upload_file env chs src fn title comment thread
         = upload_from_url env (joinChannels chs) src fn title comment thread) ∧
    (is_url src = false → is_file_path env src = true →
       upload_file env chs src fn title comment thread
         = upload_from_path env (joinChannels chs) src fn title comment thread) ∧
    (is_url src = false → is_file_path env src = false → optTruthy fn = true →
       upload_file env chs src fn title comment thread
         = upload_content env (joinChannels chs) src (fn.getD "") title comment thread) := by
  refine ⟨?_, ?_, ?_, ?_⟩
  · intro u hu
    simp [is_url, hu]
  · intro h
    simp [upload_file, h]
  · intro h1 h2
    simp [upload_file, h1, h2]
  · intro h1 h2 h3
    simp [upload_file, h1, h2, h3]

/-- Witness for C3: with a filesystem on which every string exists,
`"https://example.com/a.pdf"` still goes to the URL branch (and satisfies the
scheme/netloc characterisation), `"/tmp/data.txt"` goes to the path branch,
and on an empty filesystem `"plain text notes"` goes to the content branch. -/
theorem upload_source_classification_check :
    (("https" : String) ≠ "" ∧ ("example.com" : String) ≠ "") ∧
    (upload_file ⟨fun _ => true, fun _ => true, fun _ => .exc "offline", fun _ _ => .exc "offline"⟩
        (.one "C1") "https://example.com/a.pdf" none none none none
      = upload_from_url ⟨fun _ => true, fun _ => true, fun _ => .exc "offline", fun _ _ => .exc "offline"⟩
          "C1" "https://example.com/a.pdf" none none none none) ∧
    (upload_file ⟨fun _ => true, fun _ => true, fun _ => .exc "offline", fun _ _ => .exc "offline"⟩
        (.one "C1") "/tmp/data.txt" none none none none
      = upload_from_path ⟨fun _ => true, fun _ => true, fun _ => .exc "offline", fun _ _ => .exc "offline"⟩
          "C1" "/tmp/data.txt" none none none none) ∧
    (upload_file ⟨fun _ => false, fun _ => false, fun _ => .exc "offline", fun _ _ => .exc "offline"⟩
        (.one "C1") "plain text notes" (some "note.txt") none none none
      = upload_content ⟨fun _ => false, fun _ => false, fun _ => .exc "offline", fun _ _ => .exc "offline"⟩
          "C1" "plain text notes" "note.txt" none none none) :=
  ⟨((upload_source_classification
        ⟨fun _ => true, fun _ => true, fun _ => .exc "offline", fun _ _ => .exc "offline"⟩
        (.one "C1") "https://example.com/a.pdf" none none none none).1
      ⟨"https", "example.com", "/a.pdf"⟩ (by decide)).mp (by decide),
   (upload_source_classification _ _ _ _ _ _ _).2.1 (by decide),
   (upload_source_classification _ _ _ _ _ _ _).2.2.1 (by decide) (by decide),
   (upload_source_classification _ _ _ _ _ _ _).2.2.2 (by decide) (by decide) (by decide)⟩

/-- C4: an `upload_file` call whose source is classified as literal text
content (neither a URL nor an existing path) and whose `filename` is absent
fails immediately with the validation error envelope, with an empty effect
trace — no outbound call of any kind is attempted. -/
theorem literal_upload_requires_filename (env : Env) (chs : StrOrList) (src : String)
    (title comment thread : Option String)
    (hu : is_url src = false) (hp : is_file_path env src = false) :
    upload_file env chs src none title comment thread
      = (failResp "filename is required when uploading text content", []) := by
  simp [upload_file, hu, hp, optTruthy]

/-- Witness for C4 at the source string `"meeting notes for Monday"` on an
empty filesystem. -/
theorem literal_upload_requires_filename_check :
    upload_file ⟨fun _ => false, fun _ => false, fun _ => .exc "offline", fun _ _ => .exc "offline"⟩
        (.one "C1") "meeting notes for Monday" none none none none
      = (failResp "filename is required when uploading text content", []) :=
  literal_upload_requires_filename _ _ _ _ _ _ (by decide) (by decide)

/-- C5: for a URL-sourced upload with no explicit filename whose fetch
succeeds, the outbound `filename` kwarg is determined in order: the final
segment of the URL path when it is non-empty and has an extension; otherwise
the fixed content-type lookup — a content type containing `pdf` yields
`downloaded_file.pdf`, one containing `image` yields `downloaded_image.jpg`,
and anything else the generic `downloaded_file`. -/
theorem url_upload_filename_derivation (env : Env) (channels url : String)
    (title comment thread : Option String) (ct : String) (content : List UInt8)
    (u : UrlParts) (hf : env.fetch url = .ok ct content) (hp : urlparse url = some u) :
    (basename u.path ≠ "" → pyIn "." (basename u.path) = true →
       sentUploadFilename (upload_from_url env channels url none title comment thread).2
         = some (.vstr (basename u.path))) ∧
    ((basename u.path = "" ∨ pyIn "." (basename u.path) = false) →
       (pyIn "pdf" ct = true →
          sentUploadFilename (upload_from_url env channels url none title comment thread).2
            = some (.vstr "downloaded_file.pdf")) ∧
       (pyIn "pdf" ct = false → pyIn "image" ct = true →
          sentUploadFilename (upload_from_url env channels url none title comment thread).2
            = some (.vstr "downloaded_image.jpg")) ∧
       (pyIn "pdf" ct = false → pyIn "image" ct = false →
          sentUploadFilename (upload_from_url env channels url none title comment thread).2
            = some (.vstr "downloaded_file"))) := by
  constructor
  · intro h1 h2
    have hcond : ((basename u.path == "") || !(pyIn "." (basename u.path))) = false := by
      simp [h1, h2]
    simp [upload_from_url, hf, hp, optTruthy, hcond, sentUploadFilename,
          sentSlackKwargs, dictGet, List.find?]
  · intro h
    have hcond : ((basename u.path == "") || !(pyIn "." (basename u.path))) = true := by
      rcases h with h | h <;> simp [h]
    refine ⟨?_, ?_, ?_⟩
    · intro hpdf
      simp [upload_from_url, hf, hp, optTruthy, hcond, hpdf, sentUploadFilename,
            sentSlackKwargs, dictGet, List.find?]
    · intro hpdf himg
      simp [upload_from_url, hf, hp, optTruthy, hcond, hpdf, himg, sentUploadFilename,
            sentSlackKwargs, dictGet, List.find?]
    · intro hpdf himg
      simp [upload_from_url, hf, hp, optTruthy, hcond, hpdf, himg, sentUploadFilename,
            sentSlackKwargs, dictGet, List.find?]

/-- Witness for C5: `https://example.com/a.pdf` yields outbound filename
`a.pdf`; `https://example.com/` (empty final segment) yields the content-type
fallback for `application/pdf`, `image/png` and `text/plain` respectively. -/
theorem url_upload_filename_derivation_check :
    sentUploadFilename (upload_from_url
        ⟨fun _ => false, fun _ => false, fun _ => .ok "application/pdf" [], fun _ _ => .exc "offline"⟩
        "C1" "https://example.com/a.pdf" none none none none).2
      = some (.vstr "a.pdf") ∧
    sentUploadFilename (upload_from_url
        ⟨fun _ => false, fun _ => false, fun _ => .ok "application/pdf" [], fun _ _ => .exc "offline"⟩
        "C1" "https://example.com/" none none none none).2
      = some (.vstr "downloaded_file.pdf") ∧
    sentUploadFilename (upload_from_url
        ⟨fun _ => false, fun _ => false, fun _ => .ok "image/png" [], fun _ _ => .exc "offline"⟩
        "C1" "https://example.com/" none none none none).2
      = some (.vstr "downloaded_image.jpg") ∧
    sentUploadFilename (upload_from_url
        ⟨fun _ => false, fun _ => false, fun _ => .ok "text/plain" [], fun _ _ => .exc "offline"⟩
        "C1" "https://example.com/" none none none none).2
      = some (.vstr "downloaded_file") :=
  ⟨(url_upload_filename_derivation
      ⟨fun _ => false, fun _ => false, fun _ => .ok "application/pdf" [], fun _ _ => .exc "offline"⟩
      "C1" "https://example.com/a.pdf" none none none "application/pdf" []
      ⟨"https", "example.com", "/a.pdf"⟩ rfl rfl).1 (by decide) (by decide),
   ((url_upload_filename_derivation
      ⟨fun _ => false, fun _ => false, fun _ => .ok "application/pdf" [], fun _ _ => .exc "offline"⟩
      "C1" "https://example.com/" none none none "application/pdf" []
      ⟨"https", "example.com", "/"⟩ rfl rfl).2 (Or.inl (by decide))).1 (by decide),
   ((url_upload_filename_derivation
      ⟨fun _ => false, fun _ => false, fun _ => .ok "image/png" [], fun _ _ => .exc "offline"⟩
      "C1" "https://example.com/" none none none "image/png" []
      ⟨"https", "example.com", "/"⟩ rfl rfl).2 (Or.inl (by decide))).2.1 (by decide) (by decide),
   ((url_upload_filename_derivation
      ⟨fun _ => false, fun _ => false, fun _ => .ok "text/plain" [], fun _ _ => .exc "offline"⟩
      "C1" "https://example.com/" none none none "text/plain" []
      ⟨"https", "example.com", "/"⟩ rfl rfl).2 (Or.inl (by decide))).2.2 (by decide) (by decide)⟩

/-- The keys of an outbound parameter mapping. -/
def payloadKeys (p : Payload) : List String := p.map Prod.fst

/-- A single optionally-included kwarg never contributes a foreign key. -/
theorem not_mem_keys_ite_single (k k' : String) (v : Value) (c : Bool) (h : k ≠ k') :
    k ∉ ((if c then [(k', v)] else []).map Prod.fst) := by
  cases c <;> simp [h]

/-- Counterexample to C6: a path-sourced `upload_file` call with `filename`
and `title` absent nevertheless sends outbound `filename` and `title` entries
(with derived defaults) to the remote call, so the outbound mapping does not
contain only caller-supplied keys. -/
theorem upload_sends_derived_title_when_absent :
    dictGet ((sentSlackKwargs (upload_file
        ⟨fun p => p == "/tmp/report.txt", fun _ => false, fun _ => .exc "offline",
         fun _ _ => .success [("ok", .vbool true)]⟩
        (.one "C1") "/tmp/report.txt" none none none none).2).getD []) "title"
      = some (.vstr "File: report.txt") ∧
    dictGet ((sentSlackKwargs (upload_file
        ⟨fun p => p == "/tmp/report.txt", fun _ => false, fun _ => .exc "offline",
         fun _ _ => .success [("ok", .vbool true)]⟩
        (.one "C1") "/tmp/report.txt" none none none none).2).getD []) "filename"
      = some (.vstr "report.txt") :=
  ⟨rfl, rfl⟩

/-- C6 as amended: for the message-send operation, every optional parameter
the caller leaves absent produces no entry in the outbound mapping, and a call
with only `channel` and non-empty `text` sends exactly the keys `channel` and
`text` (no `blocks`/`attachments`/`thread_ts`); the upload operations are the
exception, always sending derived `filename` and `title` entries. -/
theorem send_message_omits_absent_optionals (channel : String) (text : Option String)
    (blocks attachments : Option (List Value))
    (thread_ts username icon_emoji icon_url : Option String) :
    (text = none → "text" ∉ payloadKeys (send_message_kwargs channel text blocks
        attachments thread_ts username icon_emoji icon_url)) ∧
    (blocks = none → "blocks" ∉ payloadKeys (send_message_kwargs channel text blocks
        attachments thread_ts username icon_emoji icon_url)) ∧
    (attachments = none → "attachments" ∉ payloadKeys (send_message_kwargs channel text blocks
        attachments thread_ts username icon_emoji icon_url)) ∧
    (thread_ts = none → "thread_ts" ∉ payloadKeys (send_message_kwargs channel text blocks
        attachments thread_ts username icon_emoji icon_url)) ∧
    (username = none → "username" ∉ payloadKeys (send_message_kwargs channel text blocks
        attachments thread_ts username icon_emoji icon_url)) ∧
    (icon_emoji = none → "icon_emoji" ∉ payloadKeys (send_message_kwargs channel text blocks
        attachments thread_ts username icon_emoji icon_url)) ∧
    (icon_url = none → "icon_url" ∉ payloadKeys (send_message_kwargs channel text blocks
        attachments thread_ts username icon_emoji icon_url)) ∧
    (∀ t : String, t ≠ "" →
       payloadKeys (send_message_kwargs channel (some t) none none none none none none)
         = ["channel", "text"]) := by
  refine ⟨?_, ?_, ?_, ?_, ?_, ?_, ?_, ?_⟩
  · intro h; subst h
    simp only [send_message_kwargs, payloadKeys, List.map_append]
    repeat' apply List.not_mem_append
    all_goals first
      | exact not_mem_keys_ite_single _ _ _ _ (by decide)
      | simp [optTruthy, optListTruthy]
  · intro h; subst h
    simp only [send_message_kwargs, payloadKeys, List.map_append]
    repeat' apply List.not_mem_append
    all_goals first
      | exact not_mem_keys_ite_single _ _ _ _ (by decide)
      | simp [optTruthy, optListTruthy]
  · intro h; subst h
    simp only [send_message_kwargs, payloadKeys, List.map_append]
    repeat' apply List.not_mem_append
    all_goals first
      | exact not_mem_keys_ite_single _ _ _ _ (by decide)
      | simp [optTruthy, optListTruthy]
  · intro h; subst h
    simp only [send_message_kwargs, payloadKeys, List.map_append]
    repeat' apply List.not_mem_append
    all_goals first
      | exact not_mem_keys_ite_single _ _ _ _ (by decide)
      | simp [optTruthy, optListTruthy]
  · intro h; subst h
    simp only [send_message_kwargs, payloadKeys, List.map_append]
    repeat' apply List.not_mem_append
    all_goals first
      | exact not_mem_keys_ite_single _ _ _ _ (by decide)
      | simp [optTruthy, optListTruthy]
  · intro h; subst h
    simp only [send_message_kwargs, payloadKeys, List.map_append]
    repeat' apply List.not_mem_append
    all_goals first
      | exact not_mem_keys_ite_single _ _ _ _ (by decide)
      | simp [optTruthy, optListTruthy]
  · intro h; subst h
    simp only [send_message_kwargs, payloadKeys, List.map_append]
    repeat' apply List.not_mem_append
    all_goals first
      | exact not_mem_keys_ite_single _ _ _ _ (by decide)
      | simp [optTruthy, optListTruthy]
  · intro t ht
    simp [send_message_kwargs, payloadKeys, optTruthy, optListTruthy, ht]

/-- Witness for the amended C6: a send with only `channel="C123"` omits every
optional key, and a send with `channel="C123"`, `text="hi"` sends exactly
`channel` and `text`. -/
theorem send_message_omits_absent_optionals_check :
    ("text" ∉ payloadKeys (send_message_kwargs "C123" none none none none none none none)) ∧
    ("blocks" ∉ payloadKeys (send_message_kwargs "C123" none none none none none none none)) ∧
    ("attachments" ∉ payloadKeys (send_message_kwargs "C123" none none none none none none none)) ∧
    ("thread_ts" ∉ payloadKeys (send_message_kwargs "C123" none none none none none none none)) ∧
    (payloadKeys (send_message_kwargs "C123" (some "hi") none none none none none none)
       = ["channel", "text"]) :=
  ⟨(send_message_omits_absent_optionals "C123" none none none none none none none).1 rfl,
   (send_message_omits_absent_optionals "C123" none none none none none none none).2.1 rfl,
   (send_message_omits_absent_optionals "C123" none none none none none none none).2.2.1 rfl,
   (send_message_omits_absent_optionals "C123" none none none none none none none).2.2.2.1 rfl,
   (send_message_omits_absent_optionals "C123" none none none none none none none).2.2.2.2.2.2.2
     "hi" (by decide)⟩

/-- C7: when the transport adapter returns an `ok = false` envelope carrying a
remote error code, the facade raises a `ValueError` whose message is the
operation-specific context followed by the envelope's error string (which it
therefore contains), shown for the list-channels and send-message facades. -/
theorem facade_error_embeds_envelope_error (env : Env) (limitv : Int) (ea : Bool)
    (types channel : String) (cursor : Option String) (text : Option String)
    (blocks attachments : Option (List Value))
    (thread_ts username icon_emoji icon_url : Option String)
    (r r2 : Payload) (e e2 : String) :
    (env.slack "conversations_list" (list_channels_kwargs ea limitv types cursor) = .apiError r →
       dictGet r "error" = some (.vstr e) →
       (list_slack_channels env limitv ea types cursor).1
           = .error ("Failed to list channels: " ++ e) ∧
         e.data <:+: ("Failed to list channels: " ++ e).data) ∧
    (env.slack "chat_postMessage" (send_message_kwargs channel text blocks attachments
          thread_ts username icon_emoji icon_url) = .apiError r2 →
       dictGet r2 "error" = some (.vstr e2) →
       (optTruthy text || optListTruthy blocks) = true →
       (send_slack_message env channel text blocks attachments
           thread_ts username icon_emoji icon_url).1
           = .error ("Failed to send message: " ++ e2) ∧
         e2.data <:+: ("Failed to send message: " ++ e2).data) := by
  constructor
  · intro hs he
    refine ⟨?_, "Failed to list channels: ".data, [], by simp [String.data_append]⟩
    simp [list_slack_channels, hs, safe_api_call, he, errStr]
  · intro hs he hv
    have hcond : (!(optTruthy text) && !(optListTruthy blocks)) = false := by
      rw [← Bool.not_or, hv]; rfl
    refine ⟨?_, "Failed to send message: ".data, [], by simp [String.data_append]⟩
    simp [send_slack_message, hcond, send_message, hs, safe_api_call, he, errStr]

/-- Witness for C7: a remote failure `{ok: false, error: "ratelimited"}` makes
the list-channels facade raise `"Failed to list channels: ratelimited"` and
the send-message facade raise `"Failed to send message: ratelimited"`, both
containing `"ratelimited"`. -/
theorem facade_error_embeds_envelope_error_check :
    ((list_slack_channels
        ⟨fun _ => false, fun _ => false, fun _ => .exc "offline",
         fun _ _ => .apiError [("ok", .vbool false), ("error", .vstr "ratelimited")]⟩
        100 true "public_channel,private_channel" none).1
       = .error ("Failed to list channels: " ++ "ratelimited") ∧
     "ratelimited".data <:+: ("Failed to list channels: " ++ "ratelimited").data) ∧
    ((send_slack_message
        ⟨fun _ => false, fun _ => false, fun _ => .exc "offline",
         fun _ _ => .apiError [("ok", .vbool false), ("error", .vstr "ratelimited")]⟩
        "C123" (some "hi") none none none none none none).1
       = .error ("Failed to send message: " ++ "ratelimited") ∧
     "ratelimited".data <:+: ("Failed to send message: " ++ "ratelimited").data) :=
  ⟨(facade_error_embeds_envelope_error
      ⟨fun _ => false, fun _ => false, fun _ => .exc "offline",
       fun _ _ => .apiError [("ok", .vbool false), ("error", .vstr "ratelimited")]⟩
      100 true "public_channel,private_channel" "C123" none (some "hi") none none
      none none none none
      [("ok", .vbool false), ("error", .vstr "ratelimited")]
      [("ok", .vbool false), ("error", .vstr "ratelimited")]
      "ratelimited" "ratelimited").1 rfl rfl,
   (facade_error_embeds_envelope_error
      ⟨fun _ => false, fun _ => false, fun _ => .exc "offline",
       fun _ _ => .apiError [("ok", .vbool false), ("error", .vstr "ratelimited")]⟩
      100 true "public_channel,private_channel" "C123" none (some "hi") none none
      none none none none
      [("ok", .vbool false), ("error", .vstr "ratelimited")]
      [("ok", .vbool false), ("error", .vstr "ratelimited")]
      "ratelimited" "ratelimited").2 rfl rfl (by decide)⟩

/-- C10: a successful list-users facade call returns entries for exactly the
members of the remote payload whose `deleted` flag is not set, in order, each
reshaped by `mkUserEntry`; deleted members are silently excluded. -/
theorem list_users_excludes_deleted (env : Env) (limitv : Int) (cursor : Option String)
    (p : Payload)
    (hs : env.slack "users_list" (list_users_kwargs limitv cursor) = .success p)
    (hok : truthy (dictGetD p "ok" (.vbool false)) = true) :
    (list_slack_users env limitv cursor).1
      = .ok (((getListD p "members").filter (fun u => !userDeleted u)).map mkUserEntry) := by
  simp [list_slack_users, hs, safe_api_call, handle_response, hok]

/-- Witness for C10: a members payload with a live user `U1` and a deleted
user `U2` yields exactly the entry for `U1`. -/
theorem list_users_excludes_deleted_check :
    (list_slack_users
        ⟨fun _ => false, fun _ => false, fun _ => .exc "offline",
         fun _ _ => .success [("ok", .vbool true),
           ("members", .vlist [.vdict [("id", .vstr "U1"), ("name", .vstr "alice")],
             .vdict [("id", .vstr "U2"), ("name", .vstr "bob"), ("deleted", .vbool true)]])]⟩
        100 none).1
      = .ok [mkUserEntry (.vdict [("id", .vstr "U1"), ("name", .vstr "alice")])] :=
  list_users_excludes_deleted
    ⟨fun _ => false, fun _ => false, fun _ => .exc "offline",
     fun _ _ => .success [("ok", .vbool true),
       ("members", .vlist [.vdict [("id", .vstr "U1"), ("name", .vstr "alice")],
         .vdict [("id", .vstr "U2"), ("name", .vstr "bob"), ("deleted", .vbool true)]])]⟩
    100 none
    [("ok", .vbool true),
     ("members", .vlist [.vdict [("id", .vstr "U1"), ("name", .vstr "alice")],
       .vdict [("id", .vstr "U2"), ("name", .vstr "bob"), ("deleted", .vbool true)]])]
    rfl rfl
